import Mathlib

/-!
Verification of the `betteruptime-heartbeat` crate (`src/lib.rs`) against its
natural-language specification.

The embedding models:
* an environment-like key/value source as a function `String → Option String`
  (mirroring `std::env::var(k).ok()`);
* `HeartbeatConfig` and `HeartbeatConfig::from_env`;
* `spawn_from_env` (the boolean returned and the config the loop is started
  with);
* `heartbeat_loop` as a small-step state machine over explicit events
  (client construction result, interval ticks, per-ping outcomes).

Machine integers: `interval_secs`/`timeout_secs` are `u64` in the source;
they are modelled as `Nat`, with the `u64` range enforced where it matters
(inside `parse_u64`, mirroring `str::parse::<u64>` overflow failure).
-/

namespace Heartbeat

/-- Rust `char::is_whitespace`: the Unicode `White_Space` property
(U+0009–U+000D, U+0020, U+0085, U+00A0, U+1680, U+2000–U+200A, U+2028,
U+2029, U+202F, U+205F, U+3000). -/
def rust_is_whitespace (c : Char) : Bool :=
  let n := c.toNat
  (9 ≤ n && n ≤ 13) || n == 32 || n == 133 || n == 160 || n == 5760 ||
  (8192 ≤ n && n ≤ 8202) || n == 8232 || n == 8233 || n == 8239 ||
  n == 8287 || n == 12288

/-- Rust `str::trim`, on the character list of a string: remove leading and
trailing whitespace characters. -/
def rust_trim (cs : List Char) : List Char :=
  ((cs.dropWhile rust_is_whitespace).reverse.dropWhile rust_is_whitespace).reverse

/-- Rust `str::trim(s).is_empty()`. -/
def trim_is_empty (s : String) : Bool :=
  rust_trim s.data == []

/-- Rust ASCII decimal digit test, as used by `u64::from_str`
(`char::to_digit(10)`). -/
def rust_is_ascii_digit (c : Char) : Bool :=
  48 ≤ c.toNat && c.toNat ≤ 57

/-- Rust `str::parse::<u64>()` (`u64::from_str`): an optional leading `+`,
then one or more ASCII decimal digits, value below `2^64`; anything else
(empty string, other characters, leading/trailing whitespace, overflow)
fails with `None` (the `.ok()` of the `Result`). -/
def parse_u64 (s : String) : Option Nat :=
  let cs := match s.data with
            | '+' :: rest => rest
            | cs => cs
  if cs = [] then none
  else if cs.all rust_is_ascii_digit then
    let n := cs.foldl (fun acc c => acc * 10 + (c.toNat - 48)) 0
    if n < 18446744073709551616 then some n else none
  else none

/-- An environment-like key/value source: `env k` is `some v` when the
variable `k` is set (to valid Unicode) and `none` otherwise, mirroring
`std::env::var(k).ok()`. -/
def EnvSource : Type := String → Option String

/-- Struct `HeartbeatConfig` from `src/lib.rs`: a plain value object with public
fields (no smart constructor in the source). -/
structure HeartbeatConfig where
  /-- Better Uptime heartbeat URL. -/
  url : String
  /-- Interval between heartbeats in seconds (default: 60). -/
  interval_secs : Nat
  /-- HTTP request timeout in seconds (default: 10). -/
  timeout_secs : Nat
deriving DecidableEq

/-- Resolver `HeartbeatConfig::from_env`: read `HEARTBEAT_URL` (bail out with `none`
if unset or blank after trimming), then read the optional
`HEARTBEAT_INTERVAL_SECS` / `HEARTBEAT_TIMEOUT_SECS`, falling back to 60 /
10 when absent or unparsable. The URL is stored as read, untrimmed. -/
def from_env (env : EnvSource) : Option HeartbeatConfig :=
  match env "HEARTBEAT_URL" with
  | none => none
  | some url =>
    if trim_is_empty url then
      none
    else
      let interval_secs := ((env "HEARTBEAT_INTERVAL_SECS").bind parse_u64).getD 60
      let timeout_secs := ((env "HEARTBEAT_TIMEOUT_SECS").bind parse_u64).getD 10
      some { url := url, interval_secs := interval_secs, timeout_secs := timeout_secs }

/-- Entry point `spawn_from_env`: resolve the config from the source; on `none` return
`false` (heartbeat disabled), otherwise spawn the loop with the resolved
config and return `true`. The second component records which config (if
any) the loop task was started with. -/
def spawn_from_env (env : EnvSource) : Bool × Option HeartbeatConfig :=
  match from_env env with
  | none => (false, none)
  | some config => (true, some config)

/-- Outcome of one ping attempt in `heartbeat_loop`: a response with a 2xx
status, a response with a non-success status, or a transport-level failure
(timeout, connection error, ...). -/
inductive PingOutcome
  | success
  | httpError (status : Nat)
  | transportError
deriving DecidableEq

/-- Control points of `heartbeat_loop`:
`start` before client construction; `waitingFirstTick` right after a client
was built, before the first (immediately completing) tick is consumed;
`waitingTick` at the top of the `loop`; `pinging` with one GET request in
flight; `terminated` after the early `return` on client-construction
failure. -/
inductive LoopState
  | start (config : HeartbeatConfig)
  | waitingFirstTick (config : HeartbeatConfig)
  | waitingTick (config : HeartbeatConfig)
  | pinging (config : HeartbeatConfig)
  | terminated
deriving DecidableEq

/-- External events driving `heartbeat_loop`: the result of
`reqwest::Client::builder().build()`, an elapsed interval tick, and the
completion of an in-flight ping. -/
inductive LoopEvent
  | clientBuilt (ok : Bool)
  | tick
  | pingResult (o : PingOutcome)
deriving DecidableEq

/-- One step of `heartbeat_loop`. The returned `Bool` records whether this
step issued a GET request. `none` means the event cannot occur in that
state. All ping outcomes lead back to `waitingTick`; the only transition
into `terminated` is a failed client construction. -/
def heartbeat_step : LoopState → LoopEvent → Option (LoopState × Bool)
  | .start c, .clientBuilt true => some (.waitingFirstTick c, false)
  | .start _, .clientBuilt false => some (.terminated, false)
  | .waitingFirstTick c, .tick => some (.waitingTick c, false)
  | .waitingTick c, .tick => some (.pinging c, true)
  | .pinging c, .pingResult _ => some (.waitingTick c, false)
  | _, _ => none

/-- Run `heartbeat_loop` over a finite event trace, counting the GET
requests issued. -/
def heartbeat_run : LoopState → List LoopEvent → Option (LoopState × Nat)
  | s, [] => some (s, 0)
  | s, e :: es =>
    match heartbeat_step s e with
    | none => none
    | some (s2, issued) =>
      match heartbeat_run s2 es with
      | none => none
      | some (s3, p) => some (s3, (if issued then 1 else 0) + p)

/-- Number of interval ticks in an event trace. -/
def countTicks (evs : List LoopEvent) : Nat :=
  evs.countP (fun e => e == .tick)

/-- Number of ticks a state still has to consume before its next ping can
be issued; the bookkeeping quantity of `heartbeat_run_ping_bound`. -/
def tickSlack : LoopState → Nat
  | .start _ => 1
  | .waitingFirstTick _ => 1
  | .waitingTick _ => 0
  | .pinging _ => 0
  | .terminated => 1

/-- test env for C2: URL present, no interval/timeout values. -/
def c2_env : EnvSource := fun k =>
  if k = "HEARTBEAT_URL" then some "https://example.com/heartbeat" else none

/-- test env for C3: the custom URL/interval/timeout triple. -/
def c3_env : EnvSource := fun k =>
  if k = "HEARTBEAT_URL" then some "https://example.com/custom"
  else if k = "HEARTBEAT_INTERVAL_SECS" then some "120"
  else if k = "HEARTBEAT_TIMEOUT_SECS" then some "30"
  else none

/-- test env for the C4 counterexample: explicit interval `"0"`. -/
def c4_env : EnvSource := fun k =>
  if k = "HEARTBEAT_URL" then some "https://example.com/heartbeat"
  else if k = "HEARTBEAT_INTERVAL_SECS" then some "0"
  else none

/-- test config for loop-level witnesses. -/
def loop_cfg : HeartbeatConfig :=
  { url := "https://example.com/heartbeat", interval_secs := 60, timeout_secs := 10 }

/-- test envs for C9: agree on the three heartbeat keys, differ elsewhere. -/
def c9_env1 : EnvSource := fun k =>
  if k = "HEARTBEAT_URL" then some "https://example.com/heartbeat"
  else if k = "UNRELATED_VAR" then some "noise" else none

/-- second C9 test env. -/
def c9_env2 : EnvSource := fun k =>
  if k = "HEARTBEAT_URL" then some "https://example.com/heartbeat" else none

/-- test env for C10: URL with leading and trailing whitespace. -/
def c10_env : EnvSource := fun k =>
  if k = "HEARTBEAT_URL" then some "  https://example.com  " else none

/-- Tick count of a trace, unfolded one event. -/
theorem countTicks_cons (e : LoopEvent) (evs : List LoopEvent) :
    countTicks (e :: evs) = countTicks evs + (if e == LoopEvent.tick then 1 else 0) := by
  simp [countTicks, List.countP_cons]

/-- Invariant of the loop: along any run, the number of pings issued never
reaches the number of ticks consumed minus the slack of the initial state. -/
theorem heartbeat_run_ping_bound (evs : List LoopEvent) :
    ∀ (s s2 : LoopState) (p : Nat),
      heartbeat_run s evs = some (s2, p) →
      p = 0 ∨ p + tickSlack s ≤ countTicks evs := by
  induction evs with
  | nil =>
    intro s s2 p h
    simp [heartbeat_run] at h
    exact Or.inl h.2.symm
  | cons e es ih =>
    intro s s2 p h
    cases hstep : heartbeat_step s e with
    | none => simp [heartbeat_run, hstep] at h
    | some sb =>
      obtain ⟨s1, issued⟩ := sb
      cases hrun : heartbeat_run s1 es with
      | none => simp [heartbeat_run, hstep, hrun] at h
      | some sp =>
        obtain ⟨s3, p2⟩ := sp
        simp [heartbeat_run, hstep, hrun] at h
        obtain ⟨hs, hp⟩ := h
        have hI := ih s1 s3 p2 hrun
        cases s with
        | start c =>
          cases e with
          | clientBuilt ok =>
            cases ok with
            | true =>
              injection hstep with hx
              injection hx with hx1 hx2
              subst hx1; subst hx2
              rw [countTicks_cons]
              simp [tickSlack] at hI hp ⊢
              omega
            | false =>
              injection hstep with hx
              injection hx with hx1 hx2
              subst hx1; subst hx2
              rw [countTicks_cons]
              simp [tickSlack] at hI hp ⊢
              omega
          | tick => exact Option.noConfusion hstep
          | pingResult o => exact Option.noConfusion hstep
        | waitingFirstTick c =>
          cases e with
          | clientBuilt ok => cases ok <;> exact Option.noConfusion hstep
          | tick =>
            injection hstep with hx
            injection hx with hx1 hx2
            subst hx1; subst hx2
            rw [countTicks_cons]
            simp [tickSlack] at hI hp ⊢
            omega
          | pingResult o => exact Option.noConfusion hstep
        | waitingTick c =>
          cases e with
          | clientBuilt ok => cases ok <;> exact Option.noConfusion hstep
          | tick =>
            injection hstep with hx
            injection hx with hx1 hx2
            subst hx1; subst hx2
            rw [countTicks_cons]
            simp [tickSlack] at hI hp ⊢
            omega
          | pingResult o => exact Option.noConfusion hstep
        | pinging c =>
          cases e with
          | clientBuilt ok => cases ok <;> exact Option.noConfusion hstep
          | tick => exact Option.noConfusion hstep
          | pingResult o =>
            injection hstep with hx
            injection hx with hx1 hx2
            subst hx1; subst hx2
            rw [countTicks_cons]
            simp [tickSlack] at hI hp ⊢
            omega
        | terminated =>
          cases e with
          | clientBuilt ok => cases ok <;> exact Option.noConfusion hstep
          | tick => exact Option.noConfusion hstep
          | pingResult o => exact Option.noConfusion hstep

/-- Unfolding `from_env` when the URL variable is unset. -/
theorem from_env_of_url_none (env : EnvSource) (hu : env "HEARTBEAT_URL" = none) :
    from_env env = none := by
  unfold from_env
  rw [hu]

/-- Unfolding `from_env` when the URL variable is set to `url`. -/
theorem from_env_of_url_some (env : EnvSource) (url : String)
    (hu : env "HEARTBEAT_URL" = some url) :
    from_env env =
      if trim_is_empty url = true then none
      else some { url := url,
                  interval_secs := ((env "HEARTBEAT_INTERVAL_SECS").bind parse_u64).getD 60,
                  timeout_secs := ((env "HEARTBEAT_TIMEOUT_SECS").bind parse_u64).getD 10 } := by
  unfold from_env
  rw [hu]

/-- C1: `HeartbeatConfig::from_env` yields `None` if and only if the
`HEARTBEAT_URL` value is absent, or present but empty or whitespace-only
after trimming. -/
theorem C1_resolver_none_iff_url_blank (env : EnvSource) :
    from_env env = none ↔
      (env "HEARTBEAT_URL" = none ∨
        ∃ url, env "HEARTBEAT_URL" = some url ∧ trim_is_empty url = true) := by
  cases hu : env "HEARTBEAT_URL" with
  | none => simp [from_env_of_url_none env hu, hu]
  | some url =>
    rw [from_env_of_url_some env url hu]
    by_cases hb : trim_is_empty url = true
    · simp [if_pos hb, hu, hb]
    · simp [if_neg hb, hu, hb]

/-- C2: with a non-blank URL, the resolver always yields a config; when the
interval value is absent or unparsable the config has `interval_secs = 60`,
and when the timeout value is absent or unparsable it has
`timeout_secs = 10`. -/
theorem C2_silent_defaults (env : EnvSource) (url : String)
    (hu : env "HEARTBEAT_URL" = some url) (hb : trim_is_empty url = false) :
    ∃ c, from_env env = some c ∧
      ((env "HEARTBEAT_INTERVAL_SECS").bind parse_u64 = none → c.interval_secs = 60) ∧
      ((env "HEARTBEAT_TIMEOUT_SECS").bind parse_u64 = none → c.timeout_secs = 10) := by
  refine ⟨{ url := url,
            interval_secs := ((env "HEARTBEAT_INTERVAL_SECS").bind parse_u64).getD 60,
            timeout_secs := ((env "HEARTBEAT_TIMEOUT_SECS").bind parse_u64).getD 10 },
          ?_, ?_, ?_⟩
  · rw [from_env_of_url_some env url hu]
    simp [hb]
  · intro hi; simp [hi]
  · intro ht; simp [ht]

/-- C2 witness: concrete source with a URL and no overrides resolves to the
defaults 60 and 10. -/
theorem C2_silent_defaults_witness :
    ∃ c, from_env c2_env = some c ∧
      ((c2_env "HEARTBEAT_INTERVAL_SECS").bind parse_u64 = none → c.interval_secs = 60) ∧
      ((c2_env "HEARTBEAT_TIMEOUT_SECS").bind parse_u64 = none → c.timeout_secs = 10) :=
  C2_silent_defaults c2_env "https://example.com/heartbeat" rfl (by decide)

/-- C3: on the source with URL `https://example.com/custom`, interval
`"120"` and timeout `"30"`, the resolver yields exactly that config. -/
theorem C3_custom_values :
    from_env c3_env =
      some { url := "https://example.com/custom", interval_secs := 120, timeout_secs := 30 } := by
  decide

/-- C4 counterexample: the resolver accepts an explicit `"0"` interval, so a
yielded config need not have positive `interval_secs`. -/
theorem C4_counterexample :
    ¬ (∀ (env : EnvSource) (c : HeartbeatConfig),
        from_env env = some c → 0 < c.interval_secs ∧ 0 < c.timeout_secs) := by
  intro h
  have h0 := h c4_env
    { url := "https://example.com/heartbeat", interval_secs := 0, timeout_secs := 10 }
    (by decide)
  exact absurd h0.1 (by decide)

/-- C4 (amended): a yielded config has positive `interval_secs` unless the
source explicitly supplies a parsable value 0 for the interval, and likewise
for `timeout_secs`; the defaults 60 and 10 are positive. -/
theorem C4_amended_positive_unless_explicit_zero (env : EnvSource) (c : HeartbeatConfig)
    (h : from_env env = some c) :
    ((env "HEARTBEAT_INTERVAL_SECS").bind parse_u64 = some 0 ∨ 0 < c.interval_secs) ∧
    ((env "HEARTBEAT_TIMEOUT_SECS").bind parse_u64 = some 0 ∨ 0 < c.timeout_secs) := by
  cases hu : env "HEARTBEAT_URL" with
  | none => rw [from_env_of_url_none env hu] at h; exact Option.noConfusion h
  | some url =>
    rw [from_env_of_url_some env url hu] at h
    by_cases hb : trim_is_empty url = true
    · rw [if_pos hb] at h; exact Option.noConfusion h
    · rw [if_neg hb] at h
      injection h with h
      subst h
      constructor
      · cases hi : (env "HEARTBEAT_INTERVAL_SECS").bind parse_u64 with
        | none => right; simp [hi]
        | some n =>
          cases n with
          | zero => left; rfl
          | succ m => right; simp [hi]
      · cases ht : (env "HEARTBEAT_TIMEOUT_SECS").bind parse_u64 with
        | none => right; simp [ht]
        | some n =>
          cases n with
          | zero => left; rfl
          | succ m => right; simp [ht]

/-- C4 witness: on the defaults source the amended positivity holds. -/
theorem C4_amended_witness :
    ((c2_env "HEARTBEAT_INTERVAL_SECS").bind parse_u64 = some 0 ∨
      0 < ({ url := "https://example.com/heartbeat", interval_secs := 60, timeout_secs := 10 } :
        HeartbeatConfig).interval_secs) ∧
    ((c2_env "HEARTBEAT_TIMEOUT_SECS").bind parse_u64 = some 0 ∨
      0 < ({ url := "https://example.com/heartbeat", interval_secs := 60, timeout_secs := 10 } :
        HeartbeatConfig).timeout_secs) :=
  C4_amended_positive_unless_explicit_zero c2_env
    { url := "https://example.com/heartbeat", interval_secs := 60, timeout_secs := 10 }
    (by decide)

/-- C5 counterexample: `HeartbeatConfig` has public fields and no validating
constructor, so a config with an empty (blank) `url` can be constructed;
the non-blank invariant is not enforced at construction of the value. -/
theorem C5_counterexample :
    ¬ (∀ c : HeartbeatConfig, trim_is_empty c.url = false) := by
  intro h
  exact absurd (h { url := "", interval_secs := 60, timeout_secs := 10 }) (by decide)

/-- C5 (amended): every config yielded by `from_env` has a `url` that is
neither empty nor whitespace-only; direct construction of the struct is not
validated. -/
theorem C5_amended_resolver_url_nonblank (env : EnvSource) (c : HeartbeatConfig)
    (h : from_env env = some c) :
    trim_is_empty c.url = false := by
  cases hu : env "HEARTBEAT_URL" with
  | none => rw [from_env_of_url_none env hu] at h; exact Option.noConfusion h
  | some url =>
    rw [from_env_of_url_some env url hu] at h
    by_cases hb : trim_is_empty url = true
    · rw [if_pos hb] at h; exact Option.noConfusion h
    · rw [if_neg hb] at h
      injection h with h
      subst h
      simp at hb
      exact hb

/-- C5 witness: the config resolved from the defaults source has a non-blank
URL. -/
theorem C5_amended_witness :
    trim_is_empty ({ url := "https://example.com/heartbeat", interval_secs := 60, timeout_secs := 10 } : HeartbeatConfig).url = false :=
  C5_amended_resolver_url_nonblank c2_env
    { url := "https://example.com/heartbeat", interval_secs := 60, timeout_secs := 10 }
    (by decide)

/-- C6: `spawn_from_env` returns `true` exactly when the resolver yields a
config, `false` exactly when it yields nothing, and the loop is started with
exactly the resolved config. -/
theorem C6_spawn_iff_resolved (env : EnvSource) :
    ((spawn_from_env env).1 = true ↔ (from_env env).isSome = true) ∧
    ((spawn_from_env env).1 = false ↔ from_env env = none) ∧
    (spawn_from_env env).2 = from_env env := by
  unfold spawn_from_env
  cases h : from_env env <;> simp

/-- C6 witness: on the defaults source, `spawn_from_env` reports started. -/
theorem C6_spawn_iff_resolved_witness :
    (spawn_from_env c2_env).1 = true :=
  (C6_spawn_iff_resolved c2_env).1.mpr (by decide)

/-- C7: the loop reaches `terminated` only from `start` on a failed client
construction, and every ping outcome steps from `pinging` back to
`waitingTick` without issuing a request — no ping outcome ends the loop. -/
theorem C7_ping_outcomes_nonfatal :
    (∀ (s : LoopState) (e : LoopEvent) (r : LoopState × Bool),
        heartbeat_step s e = some r → r.1 = LoopState.terminated →
        ∃ c, s = LoopState.start c ∧ e = LoopEvent.clientBuilt false) ∧
    (∀ (c : HeartbeatConfig) (o : PingOutcome),
        heartbeat_step (.pinging c) (.pingResult o) = some (.waitingTick c, false)) := by
  constructor
  · intro s e r hstep hterm
    cases s with
    | start c =>
      cases e with
      | clientBuilt ok =>
        cases ok with
        | true =>
          injection hstep with hx
          rw [← hx] at hterm
          exact LoopState.noConfusion hterm
        | false => exact ⟨c, rfl, rfl⟩
      | tick => exact Option.noConfusion hstep
      | pingResult o => exact Option.noConfusion hstep
    | waitingFirstTick c =>
      cases e with
      | clientBuilt ok => cases ok <;> exact Option.noConfusion hstep
      | tick =>
        injection hstep with hx
        rw [← hx] at hterm
        exact LoopState.noConfusion hterm
      | pingResult o => exact Option.noConfusion hstep
    | waitingTick c =>
      cases e with
      | clientBuilt ok => cases ok <;> exact Option.noConfusion hstep
      | tick =>
        injection hstep with hx
        rw [← hx] at hterm
        exact LoopState.noConfusion hterm
      | pingResult o => exact Option.noConfusion hstep
    | pinging c =>
      cases e with
      | clientBuilt ok => cases ok <;> exact Option.noConfusion hstep
      | tick => exact Option.noConfusion hstep
      | pingResult o =>
        injection hstep with hx
        rw [← hx] at hterm
        exact LoopState.noConfusion hterm
    | terminated =>
      cases e with
      | clientBuilt ok => cases ok <;> exact Option.noConfusion hstep
      | tick => exact Option.noConfusion hstep
      | pingResult o => exact Option.noConfusion hstep
  · intro c o
    rfl

/-- C7 witness: the terminating step from `start` on client failure is
recognised as such. -/
theorem C7_ping_outcomes_nonfatal_witness :
    ∃ c, LoopState.start loop_cfg = LoopState.start c ∧
      LoopEvent.clientBuilt false = LoopEvent.clientBuilt false :=
  C7_ping_outcomes_nonfatal.1 (LoopState.start loop_cfg) (LoopEvent.clientBuilt false)
    (LoopState.terminated, false) rfl rfl

/-- C8: in every run from `start`, the first interval tick is consumed and
discarded without a ping, so any issued ping requires at least two elapsed
ticks — never a ping on the immediately-completing first tick. -/
theorem C8_first_tick_discarded (c : HeartbeatConfig) (evs : List LoopEvent)
    (s : LoopState) (p : Nat)
    (h : heartbeat_run (LoopState.start c) evs = some (s, p)) (hp : 0 < p) :
    2 ≤ countTicks evs ∧
    heartbeat_step (.waitingFirstTick c) .tick = some (.waitingTick c, false) := by
  refine ⟨?_, rfl⟩
  rcases heartbeat_run_ping_bound evs (LoopState.start c) s p h with h0 | hb
  · omega
  · simp [tickSlack] at hb
    omega

/-- C8 witness: a concrete run issuing one ping has consumed two ticks. -/
theorem C8_first_tick_discarded_witness :
    2 ≤ countTicks [LoopEvent.clientBuilt true, LoopEvent.tick, LoopEvent.tick,
      LoopEvent.pingResult PingOutcome.success] ∧
    heartbeat_step (.waitingFirstTick loop_cfg) .tick =
      some (.waitingTick loop_cfg, false) :=
  C8_first_tick_discarded loop_cfg
    [LoopEvent.clientBuilt true, LoopEvent.tick, LoopEvent.tick,
      LoopEvent.pingResult PingOutcome.success]
    (LoopState.waitingTick loop_cfg) 1 (by decide) (by decide)

/-- C9: the resolver is a deterministic function of the source: its result
depends only on the three read keys, so equal sources yield equal results. -/
theorem C9_resolver_deterministic (env1 env2 : EnvSource)
    (hu : env1 "HEARTBEAT_URL" = env2 "HEARTBEAT_URL")
    (hi : env1 "HEARTBEAT_INTERVAL_SECS" = env2 "HEARTBEAT_INTERVAL_SECS")
    (ht : env1 "HEARTBEAT_TIMEOUT_SECS" = env2 "HEARTBEAT_TIMEOUT_SECS") :
    from_env env1 = from_env env2 := by
  unfold from_env
  rw [hu, hi, ht]

/-- C9 witness: two sources equal on the heartbeat keys resolve equally. -/
theorem C9_resolver_deterministic_witness :
    from_env c9_env1 = from_env c9_env2 :=
  C9_resolver_deterministic c9_env1 c9_env2 rfl rfl rfl

/-- C10: the URL is stored verbatim: whenever the URL value is non-blank
after trimming, the yielded config's `url` equals the original value,
surrounding whitespace included. -/
theorem C10_url_stored_verbatim (env : EnvSource) (url : String)
    (hu : env "HEARTBEAT_URL" = some url) (hb : trim_is_empty url = false) :
    ∃ c, from_env env = some c ∧ c.url = url := by
  refine ⟨{ url := url,
            interval_secs := ((env "HEARTBEAT_INTERVAL_SECS").bind parse_u64).getD 60,
            timeout_secs := ((env "HEARTBEAT_TIMEOUT_SECS").bind parse_u64).getD 10 },
          ?_, rfl⟩
  rw [from_env_of_url_some env url hu]
  simp [hb]

/-- C10 witness: the padded URL is kept untrimmed in the resolved config. -/
theorem C10_url_stored_verbatim_witness :
    ∃ c, from_env c10_env = some c ∧ c.url = "  https://example.com  " :=
  C10_url_stored_verbatim c10_env "  https://example.com  " rfl (by decide)

end Heartbeat
